import Mathlib

/-
Verification of the Astra avatar session/animation controller
(React component `App`, file src/unnamed/part_000 of the repository).

The controller state is embedded shallowly: each `useState` slot relevant
to the verified claims becomes a field of an explicit state structure, and
each handler or collaborator callback becomes a pure state-transition
function.  JavaScript numbers are modelled as rationals (ℚ); every call to
Math.random() becomes an explicit parameter ranging over [0, 1); timers
(`setTimeout` / `clearTimeout`) become explicit small step machines.
-/

namespace Astra

/-- Session state of the live connection: the three values of the
`status` useState slot (part_000 line 16). -/
inductive Status
| idle
| listening
| speaking
deriving DecidableEq, Repr

/-- Camera facing mode (part_000 line 18). -/
inductive Facing
| user
| environment
deriving DecidableEq, Repr

/-- Idle cosmetic gesture (part_000 line 29). -/
inductive IdleAction
| none
| glance
| tilt
| shift
deriving DecidableEq, Repr

/-- Helper for `jsIncludes`: does the first character list start with the
second one? -/
def listStartsWith : List Char → List Char → Bool
  | _, [] => true
  | [], _ :: _ => false
  | c :: cs, p :: ps => c == p && listStartsWith cs ps

/-- Helper for `jsIncludes`: does the pattern occur as a contiguous
sublist? -/
def listContainsSub : List Char → List Char → Bool
  | [], pat => pat.isEmpty
  | c :: rest, pat => listStartsWith (c :: rest) pat || listContainsSub rest pat

/-- JavaScript `String.prototype.includes`, modelled structurally on the
character lists of the two strings. -/
def jsIncludes (s pat : String) : Bool :=
  listContainsSub s.data pat.data

/-- JavaScript `String.prototype.trim` on a character list: drop
whitespace from both ends. -/
def trimChars (cs : List Char) : List Char :=
  ((cs.dropWhile Char.isWhitespace).reverse.dropWhile Char.isWhitespace).reverse

/-- The character inspected by the lip-sync effect:
`astraResponse.trim().slice(-1).toLowerCase()` (part_000 line 105), as an
optional character (`Option.none` when the trimmed text is empty, in which
case the JS code holds the empty string, which belongs to no category
set). -/
def lastCharLower (s : String) : Option Char :=
  (trimChars s.data).getLast?.map Char.toLower

/-- The slice of the `App` component state used by the session controller,
the transcript buffer and the animation-commissioning logic
(part_000 lines 13-43). -/
structure AppSt where
  needsApiKey : Bool
  audioLevel : ℚ
  status : Status
  isVisionSync : Bool
  error : Option String
  textInput : String
  astraResponse : Option String
  latestResponseRef : String
  isTyping : Bool
  videoUrl : Option String
  isAnimating : Bool
  animationStatus : String
deriving DecidableEq, Repr

/-- Error message set by `startCamera` on acquisition failure
(part_000 line 194). -/
def cameraErrMsg : String := "Neural lens access denied. Please check camera permissions."

/-- Error message set by `handleAnimate` on QUOTA_EXHAUSTED
(part_000 line 251). -/
def quotaErrMsg : String := "Neural Quota Exhausted: You have reached your API limit. Please switch to a Paid API key or wait for the quota to reset."

/-- Error message set by `handleAnimate` on SERVICE_UNAVAILABLE
(part_000 line 249). -/
def overloadErrMsg : String := "Neural animation engine is temporarily overloaded. Please try again in a few minutes."

/-- Fallback error message of `handleAnimate` (part_000 line 254). -/
def genericAnimErrMsg : String := "Neural animation failed. Please ensure you are using a Paid API key."

/-- Substring tested by the `onError` callback (part_000 line 286). -/
def modelAccessDeniedPat : String := "Model access denied"

/-- Substring tested by the `onError` callback (part_000 line 286). -/
def quotaExhaustedLowerPat : String := "Quota exhausted"

/-- Substring whose presence in `quotaErrMsg` claim C4 asserts. -/
def quotaTitlePat : String := "Quota Exhausted"

/-- The distinguished error identifier for quota exhaustion
(part_000 line 250). -/
def quotaToken : String := "QUOTA_EXHAUSTED"

/-- The branch of `toggleSession` taken when the status differs from idle
(part_000 lines 263-269): stop the live service, reset status to idle,
clear the response, clear typing, zero the audio level.  The other branch
(session start) talks to the remote collaborator and is not part of this
state model; theorems about this function carry the guard
`st.status ≠ Status.idle` explicitly. -/
def toggleSessionStop (st : AppSt) : AppSt :=
  { st with status := Status.idle, astraResponse := Option.none,
            isTyping := false, audioLevel := 0 }

/-- The `onAudioLevel` callback (part_000 line 275). -/
def onAudioLevel (st : AppSt) (level : ℚ) : AppSt :=
  { st with audioLevel := level }

/-- The `onStatusChange` callback (part_000 lines 276-281). -/
def onStatusChange (st : AppSt) (s : Status) : AppSt :=
  let st1 := { st with status := s }
  if s = Status.speaking then { st1 with isTyping := true } else st1

/-- The `onError` callback (part_000 lines 282-289). -/
def onError (st : AppSt) (msg : String) : AppSt :=
  let st1 := { st with error := Option.some msg, status := Status.idle,
                       isTyping := false }
  if jsIncludes msg modelAccessDeniedPat || jsIncludes msg quotaExhaustedLowerPat then
    { st1 with needsApiKey := true }
  else st1

/-- The `onTranscription` callback (part_000 lines 294-298). -/
def onTranscription (st : AppSt) (text : String) : AppSt :=
  let st1 := { st with astraResponse := Option.some text,
                       latestResponseRef := text }
  if 0 < text.length then { st1 with isTyping := false } else st1

/-- The `onTurnComplete` callback (part_000 lines 299-303). -/
def onTurnComplete (st : AppSt) : AppSt :=
  { st with status := Status.idle, isTyping := false, latestResponseRef := "" }

/-- The handler `handleSendMessage` (part_000 lines 159-170).  `isConnected` is
the connected test, status differing from idle (line 47).  The boolean `sendOk` models whether the
awaited collaborator `send` resolves or rejects.  The second component of
the result is the text handed to the collaborator`s send, if the call was
made. -/
def handleSendMessage (st : AppSt) (sendOk : Bool) : AppSt × Option String :=
  if trimChars st.textInput.data = [] ∨ st.status = Status.idle then
    (st, Option.none)
  else
    let st1 := { st with isTyping := true, astraResponse := Option.none }
    if sendOk then
      ({ st1 with textInput := "" }, Option.some st.textInput)
    else
      ({ st1 with isTyping := false }, Option.some st.textInput)

/-- Outcome of the awaited work inside `handleAnimate`: either the remote
animation collaborator resolves with a video URL, or some awaited step
rejects with an error whose `message` is the given string. -/
inductive AnimOutcome
| success (url : String)
| failure (msg : String)
deriving DecidableEq, Repr

/-- The handler `handleAnimate` (part_000 lines 218-260).  `progressMsgs` is the list
of strings relayed through the `onProgress` callback (each one overwrites
`animationStatus`); `outcome` is the result of the awaited calls.  The
`finally` block always clears the busy flag and the progress string. -/
def handleAnimate (st : AppSt) (progressMsgs : List String)
    (outcome : AnimOutcome) : AppSt :=
  if st.isAnimating then st
  else
    let st1 := { st with isAnimating := true, error := Option.none }
    let st2 :=
      match progressMsgs.getLast? with
      | Option.some m => { st1 with animationStatus := m }
      | Option.none => st1
    let st3 :=
      match outcome with
      | AnimOutcome.success url => { st2 with videoUrl := Option.some url }
      | AnimOutcome.failure m =>
        if m = "API_KEY_PERMISSION_DENIED" ∨ m = "API_KEY_EXPIRED" then
          { st2 with needsApiKey := true }
        else if m = "SERVICE_UNAVAILABLE" then
          { st2 with error := Option.some overloadErrMsg }
        else if m = quotaToken then
          { st2 with error := Option.some quotaErrMsg, needsApiKey := true }
        else
          { st2 with error := Option.some genericAnimErrMsg }
    { st3 with isAnimating := false, animationStatus := "" }

/-- Vowel-like characters of the lip-sync mapping (part_000 line 110). -/
def vowels : List Char := ['a', 'e', 'o', 'آ', 'ا', 'و', 'u', 'i', 'ی']

/-- Plosive-like characters of the lip-sync mapping (part_000 line 111). -/
def plosives : List Char := ['p', 'b', 'm', 't', 'd', 'پ', 'ب', 'م', 'ت', 'د']

/-- Fricative-like characters of the lip-sync mapping (part_000 line 112). -/
def fricatives : List Char := ['f', 'v', 's', 'z', 'ف', 'و', 'س', 'ز']

/-- JavaScript falsiness of the `astraResponse` slot (`!astraResponse`,
part_000 line 100): null or the empty string. -/
def respFalsy : Option String → Bool
  | Option.none => true
  | Option.some s => s = ""

/-- The lip-sync effect body (part_000 lines 99-129) as a pure function of
session state, response text and the Math.random() value `r` used for the
vowel jitter.  Source constants: 1.2 + r*0.1 = 6/5 + r*(1/10); 1.5 = 3/2;
0.85 = 17/20; -0.5 = -(1/2); 1.05 = 21/20; 0.8 = 4/5; 1.1 = 11/10;
0.3 = 3/10. -/
def mouthShapeOf (status : Status) (resp : Option String) (r : ℚ) : ℚ × ℚ :=
  if status ≠ Status.speaking ∨ respFalsy resp then (1, 0)
  else
    match lastCharLower (resp.getD "") with
    | Option.some c =>
      if c ∈ vowels then (6/5 + r * (1/10), 3/2)
      else if c ∈ plosives then (17/20, -(1/2))
      else if c ∈ fricatives then (21/20, 4/5)
      else (11/10, 3/10)
    | Option.none => (11/10, 3/10)

/-- The camera-related slice of the component state together with the
media environment: `srcObject` is the stream bound to the video surface
(streams are identified by numbers handed out by `getUserMedia`), and
`runningStreams` lists the streams that still have at least one running
track. -/
structure CamSt where
  srcObject : Option Nat
  runningStreams : List Nat
  isVisionSync : Bool
  facingMode : Facing
  error : Option String
deriving DecidableEq, Repr

/-- The track-stopping prologue of `startCamera` and of the disengage
branch of `toggleVision` (part_000 lines 174-177 and 203-206): stop every
track of the currently bound stream. -/
def stopBoundTracks (st : CamSt) : CamSt :=
  match st.srcObject with
  | Option.some s =>
    { st with runningStreams := st.runningStreams.filter (fun t => t ≠ s) }
  | Option.none => st

/-- The handler `startCamera` (part_000 lines 172-197).  `granted` is the result of
`getUserMedia`: `Option.some id` is a freshly acquired stream with running
tracks, `Option.none` is an acquisition failure (rejection caught at line
193). -/
def startCamera (st : CamSt) (mode : Facing) (granted : Option Nat) : CamSt :=
  let st1 := stopBoundTracks st
  match granted with
  | Option.some id =>
    { st1 with srcObject := Option.some id,
               runningStreams := id :: st1.runningStreams,
               isVisionSync := true, facingMode := mode }
  | Option.none =>
    { st1 with error := Option.some cameraErrMsg, isVisionSync := false }

/-- The handler `toggleVision` (part_000 lines 199-211). -/
def toggleVision (st : CamSt) (granted : Option Nat) : CamSt :=
  if st.isVisionSync then
    let st1 := stopBoundTracks st
    { st1 with isVisionSync := false, srcObject := Option.none }
  else startCamera st st.facingMode granted

/-- The handler `switchCamera` (part_000 lines 213-216). -/
def switchCamera (st : CamSt) (granted : Option Nat) : CamSt :=
  let nextMode :=
    match st.facingMode with
    | Facing.user => Facing.environment
    | Facing.environment => Facing.user
  startCamera st nextMode granted

/-- The camera operations a user can trigger, each carrying the
environment response for its (possible) `getUserMedia` call. -/
inductive CamOp
| start (mode : Facing) (granted : Option Nat)
| toggle (granted : Option Nat)
| switch (granted : Option Nat)
deriving DecidableEq, Repr

/-- One camera operation. -/
def camStep (st : CamSt) : CamOp → CamSt
  | CamOp.start mode granted => startCamera st mode granted
  | CamOp.toggle granted => toggleVision st granted
  | CamOp.switch granted => switchCamera st granted

/-- A sequence of camera operations. -/
def runCam (st : CamSt) : List CamOp → CamSt
  | [] => st
  | op :: ops => runCam (camStep st op) ops

/-- Initial camera state of a freshly mounted component
(part_000 lines 17-19: no stream bound, vision off, facing user). -/
def camInit : CamSt :=
  { srcObject := Option.none, runningStreams := [], isVisionSync := false,
    facingMode := Facing.user, error := Option.none }

/-- Every stream with running tracks is the currently bound one. -/
def onlyBoundRunning (st : CamSt) : Prop :=
  ∀ t ∈ st.runningStreams, st.srcObject = Option.some t

/-- At most one stream has running tracks. -/
def atMostOneRunning (st : CamSt) : Prop :=
  ∀ a ∈ st.runningStreams, ∀ b ∈ st.runningStreams, a = b

/-- State of the memory-note display: current time in ms, the displayed
note (`lastMemory`, part_000 line 20), and the expiry instants of all
pending `setTimeout(() => setLastMemory(null), 8000)` timers
(part_000 line 292). -/
structure MemSt where
  now : ℚ
  lastMemory : Option String
  pendingClears : List ℚ
deriving DecidableEq, Repr

/-- Events of the memory-note machine: the `onMemoryUpdate` callback
(part_000 lines 290-293), and the passage of time, which fires every
timer whose expiry is reached. -/
inductive MemEv
| update (fact : String)
| elapse (d : ℚ)
deriving DecidableEq, Repr

/-- One memory-note event.  `onMemoryUpdate` stores the fact and arms a
fresh 8000 ms clear timer; it does not cancel any previously armed timer.
`elapse d` fires every due timer; each firing sets the note to null. -/
def memStep (st : MemSt) : MemEv → MemSt
  | MemEv.update fact =>
    { st with lastMemory := Option.some fact,
              pendingClears := (st.now + 8000) :: st.pendingClears }
  | MemEv.elapse d =>
    let t := st.now + d
    let due := st.pendingClears.filter (fun e => decide (e ≤ t))
    { now := t,
      lastMemory := if due.isEmpty then st.lastMemory else Option.none,
      pendingClears := st.pendingClears.filter (fun e => decide (t < e)) }

/-- A sequence of memory-note events. -/
def runMem (st : MemSt) : List MemEv → MemSt
  | [] => st
  | ev :: evs => runMem (memStep st ev) evs

/-- Initial memory-note state. -/
def memInit : MemSt :=
  { now := 0, lastMemory := Option.none, pendingClears := [] }

/-- The choice `actions[Math.floor(Math.random() * 3)]` with
the three-element gesture array (part_000 lines 142-143). -/
def pickAction (r : ℚ) : IdleAction :=
  let i := (Int.floor (3 * r)).toNat
  if i = 0 then IdleAction.glance
  else if i = 1 then IdleAction.tilt
  else IdleAction.shift

/-- The delay `Math.random() * 8000 + 4000` (part_000 line 140). -/
def idleDelay (r : ℚ) : ℚ := r * 8000 + 4000

/-- The hold `2000 + Math.random() * 1000` (part_000 line 151). -/
def idleHold (r : ℚ) : ℚ := 2000 + r * 1000

/-- State of the idle-actions effect (part_000 lines 132-157).  `curOuter`
is an armed `scheduleAction` delay timer belonging to the live effect run
(the one its cleanup can clear); `curInner` is an armed gesture-reset
timer of the live run.  `zOuter` / `zInner` count timers of torn-down
effect runs, which keep firing but whose handles no cleanup can reach. -/
structure IdleSt where
  status : Status
  enable : Bool
  idleAction : IdleAction
  curOuter : Bool
  curInner : Bool
  zOuter : Nat
  zInner : Nat
deriving DecidableEq, Repr

/-- The idle-actions effect body (part_000 lines 133-136 and 155): if the
session is not idle or idle actions are disabled, reset the gesture and
schedule nothing; otherwise arm the delay timer. -/
def idleEffectBody (st : IdleSt) : IdleSt :=
  if st.status ≠ Status.idle ∨ st.enable = false then
    { st with idleAction := IdleAction.none }
  else { st with curOuter := true }

/-- The idle-actions effect cleanup (part_000 line 156),
`clearTimeout(actionTimeout)`: clears the live run`s delay timer.  A
still-armed gesture-reset timer of the torn-down run is orphaned, not
cleared. -/
def idleCleanup (st : IdleSt) : IdleSt :=
  { st with curOuter := false, curInner := false,
            zInner := st.zInner + (if st.curInner then 1 else 0) }

/-- Events of the idle-actions machine.  The effect has dependency array
`[status]` (part_000 line 157), so only a session-state change re-runs it;
toggling `enableIdleActions` does not.  Fire events are no-ops when the
corresponding timer is not armed. -/
inductive IdleEv
| setStatus (s : Status)
| setEnable (b : Bool)
| outerFire (r : ℚ)
| innerFire
| zOuterFire (r : ℚ)
| zInnerFire
deriving DecidableEq, Repr

/-- One idle-actions event. -/
def idleStep (st : IdleSt) : IdleEv → IdleSt
  | IdleEv.setStatus s =>
    if s = st.status then st
    else idleEffectBody { (idleCleanup st) with status := s }
  | IdleEv.setEnable b => { st with enable := b }
  | IdleEv.outerFire r =>
    if st.curOuter then
      { st with curOuter := false, idleAction := pickAction r, curInner := true }
    else st
  | IdleEv.innerFire =>
    if st.curInner then
      { st with curInner := false, idleAction := IdleAction.none, curOuter := true }
    else st
  | IdleEv.zOuterFire r =>
    if 0 < st.zOuter then
      { st with zOuter := st.zOuter - 1, idleAction := pickAction r,
                zInner := st.zInner + 1 }
    else st
  | IdleEv.zInnerFire =>
    if 0 < st.zInner then
      { st with zInner := st.zInner - 1, idleAction := IdleAction.none,
                zOuter := st.zOuter + 1 }
    else st

/-- A sequence of idle-actions events. -/
def runIdle (st : IdleSt) : List IdleEv → IdleSt
  | [] => st
  | ev :: evs => runIdle (idleStep st ev) evs

/-- Idle-actions state right after mounting with the given session state
and enable flag (the effect body runs once on mount). -/
def idleMount (status : Status) (enable : Bool) : IdleSt :=
  idleEffectBody
    { status := status, enable := enable, idleAction := IdleAction.none,
      curOuter := false, curInner := false, zOuter := 0, zInner := 0 }

/-- Blink delay (part_000 lines 81-82): `Math.random() > 0.8` picks the
200 ms double-blink follow-up, otherwise `Math.random() * 5000 + 2500`. -/
def blinkDelay (r1 r2 : ℚ) : ℚ :=
  if 4/5 < r1 then 200 else r2 * 5000 + 2500

/-- Blink duration (part_000 line 87): `Math.random() * 50 + 100`. -/
def blinkDuration (r : ℚ) : ℚ := r * 50 + 100

/-- One scheduled blink: the triple of Math.random() values drawn for it
determines its delay and its duration. -/
def blinkEvent (rs : ℚ × ℚ × ℚ) : ℚ × ℚ :=
  (blinkDelay rs.1 rs.2.1, blinkDuration rs.2.2)

/-- The free-running blink loop (part_000 lines 77-96): `scheduleBlink`
reschedules itself after every blink, so the n-th blink is determined by
the n-th triple of random draws and by nothing else — in particular not by
the session state, which the effect (dependency array `[]`) never reads. -/
def blinkSchedule (rs : ℕ → ℚ × ℚ × ℚ) (n : ℕ) : ℚ × ℚ :=
  blinkEvent (rs n)

/-- A concrete mid-session component state: connected (listening), a
non-zero stored audio level, typing shown. -/
def exApp : AppSt :=
  { needsApiKey := false, audioLevel := 1/2, status := Status.listening,
    isVisionSync := false, error := Option.none, textInput := "",
    astraResponse := Option.none, latestResponseRef := "", isTyping := true,
    videoUrl := Option.none, isAnimating := false, animationStatus := "" }

/-- A concrete error message carried by the `onError` callback. -/
def errBoom : String := "Neural Bridge link lost"

/-- A concrete response text. -/
def respHi : String := "hi"

/-- A concrete response text whose trailing character is a plosive. -/
def respBat : String := "bat"

/-- A concrete response text ending in the character shared by the vowel
and fricative sets. -/
def wawStr : String := "و"

/-- A concrete speaking-state component state with a displayed response. -/
def exApp3 : AppSt :=
  { exApp with astraResponse := Option.some respHi, status := Status.speaking }

/- ------------------------------------------------------------------ -/
/- Helper lemmas                                                       -/
/- ------------------------------------------------------------------ -/

/-- Field values of `onError`: it forces idle, clears typing, stores the
message, and leaves the audio level untouched in both branches. -/
theorem onError_fields (st : AppSt) (msg : String) :
    (onError st msg).status = Status.idle ∧
    (onError st msg).isTyping = false ∧
    (onError st msg).audioLevel = st.audioLevel ∧
    (onError st msg).error = Option.some msg := by
  unfold onError
  split <;> exact ⟨rfl, rfl, rfl, rfl⟩

/- ------------------------------------------------------------------ -/
/- Claim C1                                                            -/
/- ------------------------------------------------------------------ -/

/-- C1, counterexample: the claim asserts that every transition entering
idle — including the error callback — sets the stored audio level to
zero.  On the concrete connected state `exApp` with audio level 1/2, the
`onError` callback enters idle and clears typing, yet leaves the audio
level at 1/2 ≠ 0. -/
theorem C1_counterexample :
    (onError exApp errBoom).status = Status.idle ∧
    (onError exApp errBoom).isTyping = false ∧
    (onError exApp errBoom).audioLevel = 1/2 ∧
    ¬ ((onError exApp errBoom).audioLevel = 0) := by
  have h := onError_fields exApp errBoom
  refine ⟨h.1, h.2.1, h.2.2.1, ?_⟩
  rw [h.2.2.1]
  show ¬ ((1 : ℚ)/2 = 0)
  norm_num

/-- C1, amended: the session state is always one of idle, listening,
speaking; entering idle through the stop branch of `toggleSession` clears
the typing flag and zeroes the stored audio level; entering idle through
the error callback or the turn-complete callback clears the typing flag
but leaves the stored audio level unchanged. -/
theorem C1_amended :
    (∀ s : Status, s = Status.idle ∨ s = Status.listening ∨ s = Status.speaking) ∧
    (∀ st : AppSt, st.status ≠ Status.idle →
       (toggleSessionStop st).status = Status.idle ∧
       (toggleSessionStop st).isTyping = false ∧
       (toggleSessionStop st).audioLevel = 0) ∧
    (∀ (st : AppSt) (msg : String),
       (onError st msg).status = Status.idle ∧
       (onError st msg).isTyping = false ∧
       (onError st msg).audioLevel = st.audioLevel) ∧
    (∀ st : AppSt,
       (onTurnComplete st).status = Status.idle ∧
       (onTurnComplete st).isTyping = false ∧
       (onTurnComplete st).audioLevel = st.audioLevel) := by
  refine ⟨?_, ?_, ?_, ?_⟩
  · intro s; cases s
    · exact Or.inl rfl
    · exact Or.inr (Or.inl rfl)
    · exact Or.inr (Or.inr rfl)
  · intro st _
    exact ⟨rfl, rfl, rfl⟩
  · intro st msg
    have h := onError_fields st msg
    exact ⟨h.1, h.2.1, h.2.2.1⟩
  · intro st
    exact ⟨rfl, rfl, rfl⟩

/-- C1, witness: the amended theorem applied to the concrete connected
state `exApp`. -/
theorem C1_witness :
    (toggleSessionStop exApp).status = Status.idle ∧
    (toggleSessionStop exApp).audioLevel = 0 ∧
    (onError exApp errBoom).audioLevel = exApp.audioLevel :=
  ⟨(C1_amended.2.1 exApp (by decide)).1,
   (C1_amended.2.1 exApp (by decide)).2.2,
   (C1_amended.2.2.1 exApp errBoom).2.2⟩

/- ------------------------------------------------------------------ -/
/- Claim C3                                                            -/
/- ------------------------------------------------------------------ -/

/-- C3, counterexample: the claim asserts that after every turn completion
the displayed response text is empty.  On the concrete speaking state
`exApp3` displaying the response "hi", `onTurnComplete` enters idle and
clears typing, yet the displayed response text `astraResponse` is still
"hi". -/
theorem C3_counterexample :
    (onTurnComplete exApp3).status = Status.idle ∧
    (onTurnComplete exApp3).isTyping = false ∧
    (onTurnComplete exApp3).astraResponse = Option.some respHi ∧
    ¬ ((onTurnComplete exApp3).astraResponse = Option.none) := by
  refine ⟨rfl, rfl, rfl, ?_⟩
  intro h
  exact Option.noConfusion h

/-- C3, amended: the turn-complete callback resets the session state to
idle, clears the typing flag, and clears the internal last-response
tracking ref; the displayed response text (`astraResponse`) and the text
input are left unchanged. -/
theorem C3_amended :
    ∀ st : AppSt,
      (onTurnComplete st).status = Status.idle ∧
      (onTurnComplete st).isTyping = false ∧
      (onTurnComplete st).latestResponseRef = "" ∧
      (onTurnComplete st).astraResponse = st.astraResponse ∧
      (onTurnComplete st).textInput = st.textInput := by
  intro st
  exact ⟨rfl, rfl, rfl, rfl, rfl⟩

/- ------------------------------------------------------------------ -/
/- Claim C4                                                            -/
/- ------------------------------------------------------------------ -/

/-- C4: `handleAnimate` is a no-op while the busy flag is set (the whole
state, in particular the video URL and the progress string, is left
unchanged); every completed invocation ends with the busy flag false and
the progress string empty; success stores the returned video URL; a
QUOTA_EXHAUSTED failure stores an error message containing
"Quota Exhausted" and sets the credential-reprompt flag. -/
theorem C4_thm :
    ∀ (st : AppSt) (progressMsgs : List String) (outcome : AnimOutcome),
      (st.isAnimating = true → handleAnimate st progressMsgs outcome = st) ∧
      (st.isAnimating = false →
        (handleAnimate st progressMsgs outcome).isAnimating = false ∧
        (handleAnimate st progressMsgs outcome).animationStatus = "" ∧
        (∀ url, outcome = AnimOutcome.success url →
          (handleAnimate st progressMsgs outcome).videoUrl = Option.some url) ∧
        (outcome = AnimOutcome.failure quotaToken →
          (handleAnimate st progressMsgs outcome).error = Option.some quotaErrMsg ∧
          jsIncludes quotaErrMsg quotaTitlePat = true ∧
          (handleAnimate st progressMsgs outcome).needsApiKey = true)) := by
  intro st progressMsgs outcome
  constructor
  · intro h
    unfold handleAnimate
    rw [if_pos h]
  · intro h
    unfold handleAnimate
    rw [if_neg (by rw [h]; exact Bool.false_ne_true)]
    refine ⟨?_, ?_, ?_, ?_⟩
    · cases progressMsgs.getLast? <;> cases outcome <;> rfl
    · cases progressMsgs.getLast? <;> cases outcome <;> rfl
    · intro url hu
      subst hu
      cases progressMsgs.getLast? <;> rfl
    · intro hq
      subst hq
      have h1 : ¬ (quotaToken = "API_KEY_PERMISSION_DENIED" ∨ quotaToken = "API_KEY_EXPIRED") := by
        decide
      have h2 : ¬ (quotaToken = "SERVICE_UNAVAILABLE") := by decide
      refine ⟨?_, by decide, ?_⟩ <;>
        (cases progressMsgs.getLast? <;> (dsimp only; rw [if_neg h1, if_neg h2, if_pos rfl]))

/-- C4, witness: the theorem applied to the concrete non-busy state
`exApp` with a QUOTA_EXHAUSTED failure outcome. -/
theorem C4_witness :
    (handleAnimate exApp [] (AnimOutcome.failure quotaToken)).isAnimating = false ∧
    (handleAnimate exApp [] (AnimOutcome.failure quotaToken)).animationStatus = "" ∧
    (handleAnimate exApp [] (AnimOutcome.failure quotaToken)).error = Option.some quotaErrMsg ∧
    (handleAnimate exApp [] (AnimOutcome.failure quotaToken)).needsApiKey = true :=
  let h := (C4_thm exApp [] (AnimOutcome.failure quotaToken)).2 rfl
  ⟨h.1, h.2.1, (h.2.2.2 rfl).1, (h.2.2.2 rfl).2.2⟩

/- ------------------------------------------------------------------ -/
/- Claims C5 and C10                                                   -/
/- ------------------------------------------------------------------ -/

/-- A string whose lip-sync character exists is not JS-falsy. -/
theorem respFalsy_false_of_lastChar {s : String} {c : Char}
    (h : lastCharLower s = Option.some c) :
    respFalsy (Option.some s) = false := by
  by_cases hs : s = ""
  · subst hs
    have hnone : lastCharLower "" = Option.none := rfl
    rw [hnone] at h
    exact Option.noConfusion h
  · simp [respFalsy, hs]

/-- Evaluation of the lip-sync mapping in the speaking, non-falsy case:
the branch on the trailing character of the trimmed, lower-cased text. -/
theorem mouthShapeOf_speaking (s : String) (r : ℚ)
    (hs : respFalsy (Option.some s) = false) :
    mouthShapeOf Status.speaking (Option.some s) r =
      (match lastCharLower s with
       | Option.some c =>
         if c ∈ vowels then (6/5 + r * (1/10), 3/2)
         else if c ∈ plosives then (17/20, -(1/2))
         else if c ∈ fricatives then (21/20, 4/5)
         else (11/10, 3/10)
       | Option.none => ((11/10 : ℚ), (3/10 : ℚ))) := by
  unfold mouthShapeOf
  rw [if_neg]
  · rfl
  · intro hcon
    rcases hcon with h | h
    · exact h rfl
    · rw [hs] at h
      exact Bool.noConfusion h

/-- C5: the mouth shape is a pure function of session state, response
text and the vowel-jitter draw.  Not speaking, or a falsy response, gives
the neutral shape (1, 0); otherwise the trailing character of the
trimmed, lower-cased text selects one of four fixed (scale, skew) pairs,
tested in the order vowels, plosives, fricatives, other; the skew never
depends on the random draw, and the scale depends on it only in the vowel
category, where it stays inside [6/5, 13/10). -/
theorem C5_thm :
    ∀ (status : Status) (resp : Option String) (r rr : ℚ),
      0 ≤ r → r < 1 → 0 ≤ rr → rr < 1 →
      ((status ≠ Status.speaking ∨ respFalsy resp = true) →
         mouthShapeOf status resp r = (1, 0)) ∧
      (∀ s c, status = Status.speaking → resp = Option.some s →
         lastCharLower s = Option.some c →
         ((c ∈ vowels →
             (mouthShapeOf status resp r).2 = 3/2 ∧
             6/5 ≤ (mouthShapeOf status resp r).1 ∧
             (mouthShapeOf status resp r).1 < 13/10) ∧
          (c ∉ vowels → c ∈ plosives →
             mouthShapeOf status resp r = (17/20, -(1/2))) ∧
          (c ∉ vowels → c ∉ plosives → c ∈ fricatives →
             mouthShapeOf status resp r = (21/20, 4/5)) ∧
          (c ∉ vowels → c ∉ plosives → c ∉ fricatives →
             mouthShapeOf status resp r = (11/10, 3/10)))) ∧
      ((mouthShapeOf status resp r).2 = (mouthShapeOf status resp rr).2) ∧
      (∀ s, resp = Option.some s →
         (∀ c, lastCharLower s = Option.some c → c ∉ vowels) →
         mouthShapeOf status resp r = mouthShapeOf status resp rr) := by
  intro status resp r rr hr0 hr1 hrr0 hrr1
  refine ⟨?_, ?_, ?_, ?_⟩
  · intro h
    unfold mouthShapeOf
    rw [if_pos h]
  · intro s c hstat hresp hc
    subst hstat
    subst hresp
    have hs := respFalsy_false_of_lastChar hc
    rw [mouthShapeOf_speaking s r hs, hc]
    dsimp only
    refine ⟨?_, ?_, ?_, ?_⟩
    · intro hv
      rw [if_pos hv]
      refine ⟨rfl, ?_, ?_⟩
      · show (6:ℚ)/5 ≤ 6/5 + r * (1/10)
        linarith
      · show (6:ℚ)/5 + r * (1/10) < 13/10
        linarith
    · intro hnv hp
      rw [if_neg hnv, if_pos hp]
    · intro hnv hnp hf
      rw [if_neg hnv, if_neg hnp, if_pos hf]
    · intro hnv hnp hnf
      rw [if_neg hnv, if_neg hnp, if_neg hnf]
  · unfold mouthShapeOf
    by_cases h : status ≠ Status.speaking ∨ respFalsy resp = true
    · rw [if_pos h, if_pos h]
    · rw [if_neg h, if_neg h]
      cases hlc : lastCharLower (resp.getD "")
      · rfl
      · dsimp only
        split_ifs <;> rfl
  · intro s hresp hnv
    subst hresp
    by_cases hst : status = Status.speaking
    · subst hst
      cases hb : respFalsy (Option.some s)
      · rw [mouthShapeOf_speaking s r hb, mouthShapeOf_speaking s rr hb]
        cases hlc : lastCharLower s
        · rfl
        · dsimp only
          rw [if_neg (hnv _ hlc), if_neg (hnv _ hlc)]
      · unfold mouthShapeOf
        rw [if_pos (Or.inr hb), if_pos (Or.inr hb)]
    · unfold mouthShapeOf
      rw [if_pos (Or.inl hst), if_pos (Or.inl hst)]

/-- C5, witness: the theorem applied to the concrete response "bat"
(trailing plosive) with jitter draw 0 in both the not-speaking and the
speaking state. -/
theorem C5_witness :
    mouthShapeOf Status.listening (Option.some respBat) 0 = (1, 0) ∧
    mouthShapeOf Status.speaking (Option.some respBat) 0 = (17/20, -(1/2)) :=
  have h := C5_thm Status.speaking (Option.some respBat) 0 0
    (le_refl 0) zero_lt_one (le_refl 0) zero_lt_one
  have hl := C5_thm Status.listening (Option.some respBat) 0 0
    (le_refl 0) zero_lt_one (le_refl 0) zero_lt_one
  ⟨hl.1 (Or.inl (by decide)),
   ((h.2.1 respBat 't' rfl rfl (by decide)).2.1 (by decide) (by decide))⟩

/-- C10: the lip-sync category sets are not disjoint: the character
shared by `vowels` and `fricatives` is tested against `vowels` first, so
a speaking-state response whose trailing character is that character
always produces the wide-open vowel shape, never the fricative shape
(21/20, 4/5). -/
theorem C10_thm :
    ('و' ∈ vowels ∧ 'و' ∈ fricatives) ∧
    (∀ (s : String) (r : ℚ), lastCharLower s = Option.some 'و' →
       mouthShapeOf Status.speaking (Option.some s) r = (6/5 + r * (1/10), 3/2) ∧
       mouthShapeOf Status.speaking (Option.some s) r ≠ (21/20, 4/5)) := by
  refine ⟨⟨by decide, by decide⟩, ?_⟩
  intro s r hc
  have hs := respFalsy_false_of_lastChar hc
  rw [mouthShapeOf_speaking s r hs, hc]
  dsimp only
  rw [if_pos (show ('و' : Char) ∈ vowels by decide)]
  refine ⟨rfl, ?_⟩
  intro h
  have h2 := congrArg Prod.snd h
  dsimp only at h2
  norm_num at h2

/-- C10, witness: the theorem applied to the concrete one-character
response text "و" with jitter draw 0. -/
theorem C10_witness :
    mouthShapeOf Status.speaking (Option.some wawStr) 0 = (6/5 + 0 * (1/10), 3/2) ∧
    mouthShapeOf Status.speaking (Option.some wawStr) 0 ≠ (21/20, 4/5) :=
  C10_thm.2 wawStr 0 (by decide)

/- ------------------------------------------------------------------ -/
/- Claim C8                                                            -/
/- ------------------------------------------------------------------ -/

/-- C8: `handleSendMessage` with blank/whitespace-only text or a
disconnected session is a no-op (state unchanged, nothing handed to the
collaborator`s send); otherwise the untrimmed text is handed to send, the
prior response is cleared, and on success the typing flag ends true and
the input buffer is cleared, while on send failure the typing flag ends
false and the input buffer is unchanged. -/
theorem C8_thm :
    ∀ (st : AppSt) (sendOk : Bool),
      ((trimChars st.textInput.data = [] ∨ st.status = Status.idle) →
         handleSendMessage st sendOk = (st, Option.none)) ∧
      (trimChars st.textInput.data ≠ [] → st.status ≠ Status.idle →
         (handleSendMessage st sendOk).2 = Option.some st.textInput ∧
         (sendOk = true →
            (handleSendMessage st sendOk).1.isTyping = true ∧
            (handleSendMessage st sendOk).1.astraResponse = Option.none ∧
            (handleSendMessage st sendOk).1.textInput = "") ∧
         (sendOk = false →
            (handleSendMessage st sendOk).1.isTyping = false ∧
            (handleSendMessage st sendOk).1.astraResponse = Option.none ∧
            (handleSendMessage st sendOk).1.textInput = st.textInput)) := by
  intro st sendOk
  constructor
  · intro h
    unfold handleSendMessage
    rw [if_pos h]
  · intro h1 h2
    unfold handleSendMessage
    rw [if_neg ?hneg]
    case hneg =>
      intro hcon
      rcases hcon with h | h
      · exact h1 h
      · exact h2 h
    cases sendOk
    · exact ⟨rfl, fun h => Bool.noConfusion h, fun _ => ⟨rfl, rfl, rfl⟩⟩
    · exact ⟨rfl, fun _ => ⟨rfl, rfl, rfl⟩, fun h => Bool.noConfusion h⟩

/-- The text of the spec`s send scenario. -/
def helloStr : String := "hello"

/-- A concrete connected state with "hello" typed into the input. -/
def exApp8 : AppSt := { exApp with textInput := helloStr }

/-- A concrete disconnected state with "hello" typed into the input. -/
def exAppDisc : AppSt :=
  { exApp with status := Status.idle, textInput := helloStr }

/-- C8, witness: the theorem applied to the concrete states: sending
"hello" while disconnected is a no-op; sending it while connected hands
"hello" to the collaborator and clears the input; a failing send ends
with the typing flag false. -/
theorem C8_witness :
    handleSendMessage exAppDisc true = (exAppDisc, Option.none) ∧
    (handleSendMessage exApp8 true).2 = Option.some helloStr ∧
    (handleSendMessage exApp8 true).1.textInput = "" ∧
    (handleSendMessage exApp8 false).1.isTyping = false :=
  ⟨(C8_thm exAppDisc true).1 (Or.inr rfl),
   ((C8_thm exApp8 true).2 (by decide) (by decide)).1,
   (((C8_thm exApp8 true).2 (by decide) (by decide)).2.1 rfl).2.2,
   (((C8_thm exApp8 false).2 (by decide) (by decide)).2.2 rfl).1⟩

/- ------------------------------------------------------------------ -/
/- Claim C6                                                            -/
/- ------------------------------------------------------------------ -/

/-- After the track-stopping prologue, no stream has running tracks,
provided only the bound stream was running before. -/
theorem stopBoundTracks_nil {st : CamSt} (h : onlyBoundRunning st) :
    (stopBoundTracks st).runningStreams = [] := by
  unfold stopBoundTracks
  cases hsrc : st.srcObject
  · dsimp only
    refine List.eq_nil_iff_forall_not_mem.mpr (fun t ht => ?_)
    have h2 := h t ht
    rw [hsrc] at h2
    exact Option.noConfusion h2
  · dsimp only
    rw [List.filter_eq_nil_iff]
    intro t ht hp
    have h2 := h t ht
    rw [hsrc] at h2
    have h3 := Option.some.inj h2
    subst h3
    simp at hp

/-- The handler `startCamera` preserves the single-running-stream invariant. -/
theorem onlyBound_startCamera {st : CamSt} (mode : Facing)
    (granted : Option Nat) (h : onlyBoundRunning st) :
    onlyBoundRunning (startCamera st mode granted) := by
  unfold startCamera
  cases granted
  · dsimp only
    intro t ht
    rw [stopBoundTracks_nil h] at ht
    exact absurd ht (List.not_mem_nil t)
  · dsimp only
    intro t ht
    rw [stopBoundTracks_nil h] at ht
    rcases List.mem_cons.mp ht with h2 | h2
    · rw [h2]
    · exact absurd h2 (List.not_mem_nil t)

/-- Every camera operation preserves the single-running-stream
invariant. -/
theorem onlyBound_camStep {st : CamSt} (op : CamOp) (h : onlyBoundRunning st) :
    onlyBoundRunning (camStep st op) := by
  cases op with
  | start mode granted => exact onlyBound_startCamera mode granted h
  | toggle granted =>
    show onlyBoundRunning (toggleVision st granted)
    unfold toggleVision
    by_cases hv : st.isVisionSync = true
    · rw [if_pos hv]
      intro t ht
      rw [stopBoundTracks_nil h] at ht
      exact absurd ht (List.not_mem_nil t)
    · rw [if_neg hv]
      exact onlyBound_startCamera st.facingMode granted h
  | switch granted => exact onlyBound_startCamera _ granted h

/-- The single-running-stream invariant holds along every operation
sequence from the initial state. -/
theorem onlyBound_runCam : ∀ (ops : List CamOp) (st : CamSt),
    onlyBoundRunning st → onlyBoundRunning (runCam st ops) := by
  intro ops
  induction ops with
  | nil => exact fun st h => h
  | cons op ops ih =>
    intro st h
    exact ih (camStep st op) (onlyBound_camStep op h)

/-- C6: along every sequence of camera operations from the initial
state, at most one stream has running tracks (every acquisition first
stops the tracks of the previously bound stream); on acquisition failure
the camera-access error message is stored and the vision link is left
disengaged; and the previously bound stream never keeps running tracks
through a `startCamera` call unless the environment hands back the very
same stream. -/
theorem C6_thm :
    (∀ ops : List CamOp, atMostOneRunning (runCam camInit ops)) ∧
    (∀ (st : CamSt) (mode : Facing),
       (startCamera st mode Option.none).error = Option.some cameraErrMsg ∧
       (startCamera st mode Option.none).isVisionSync = false) ∧
    (∀ (st : CamSt) (mode : Facing) (granted : Option Nat) (s : Nat),
       st.srcObject = Option.some s →
       s ∈ (startCamera st mode granted).runningStreams →
       granted = Option.some s) := by
  refine ⟨?_, ?_, ?_⟩
  · intro ops
    have hinv : onlyBoundRunning (runCam camInit ops) :=
      onlyBound_runCam ops camInit (fun t ht => absurd ht (List.not_mem_nil t))
    intro a ha b hb
    have h1 := hinv a ha
    have h2 := hinv b hb
    rw [h1] at h2
    exact Option.some.inj h2
  · intro st mode
    exact ⟨rfl, rfl⟩
  · intro st mode granted s hsrc hmem
    unfold startCamera stopBoundTracks at hmem
    rw [hsrc] at hmem
    cases granted with
    | none =>
      dsimp only at hmem
      rcases List.mem_filter.mp hmem with ⟨_, hp⟩
      simp at hp
    | some id =>
      dsimp only at hmem
      rcases List.mem_cons.mp hmem with h2 | h2
      · rw [h2]
      · rcases List.mem_filter.mp h2 with ⟨_, hp⟩
        simp at hp

/-- A concrete camera state with stream 5 bound and running. -/
def exCam : CamSt :=
  { srcObject := Option.some 5, runningStreams := [5], isVisionSync := true,
    facingMode := Facing.user, error := Option.none }

/-- C6, witness: the theorem applied to a concrete operation sequence
(engage vision, then switch camera) and to the concrete bound state
`exCam` with a failing and a re-granting acquisition. -/
theorem C6_witness :
    atMostOneRunning (runCam camInit
      [CamOp.toggle (Option.some 1), CamOp.switch (Option.some 2)]) ∧
    (startCamera exCam Facing.environment Option.none).error = Option.some cameraErrMsg ∧
    (Option.some 5 : Option Nat) = Option.some 5 :=
  ⟨C6_thm.1 [CamOp.toggle (Option.some 1), CamOp.switch (Option.some 2)],
   (C6_thm.2.1 exCam Facing.environment).1,
   C6_thm.2.2 exCam Facing.environment (Option.some 5) 5 rfl (by decide)⟩

/- ------------------------------------------------------------------ -/
/- Claim C2                                                            -/
/- ------------------------------------------------------------------ -/

/-- A concrete memory fact. -/
def factA : String := "likes tea"

/-- A second concrete memory fact, arriving 3 seconds after the first. -/
def factB : String := "plays chess"

/-- C2, counterexample: the claim asserts that a fresh memory update
restarts the 8-second display window.  In the concrete trace — fact A at
t = 0 ms, fact B at t = 3000 ms — the clear timer armed by the update of
fact A is never cancelled, so at t = 8000 ms, only 5000 ms < 8000 ms
after fact B arrived, the note has already been cleared. -/
theorem C2_counterexample :
    (runMem memInit [MemEv.update factA, MemEv.elapse 3000, MemEv.update factB,
       MemEv.elapse 5000]).lastMemory = Option.none ∧
    (5000 : ℚ) < 8000 := by
  constructor
  · show (memStep (memStep (memStep (memStep memInit (MemEv.update factA))
      (MemEv.elapse 3000)) (MemEv.update factB)) (MemEv.elapse 5000)).lastMemory =
      Option.none
    norm_num [memStep, memInit, List.filter_cons, List.filter_nil]
  · norm_num

/-- C2, amended: every memory update stores the fact and arms an
unconditional clear of the note scheduled exactly 8000 ms after that
update; a fresh update does not cancel any previously armed timer, so the
note is cleared exactly when the earliest outstanding scheduled instant
is reached — possibly less than 8 seconds after the latest update. -/
theorem C2_amended :
    (∀ (st : MemSt) (fact : String),
       (memStep st (MemEv.update fact)).lastMemory = Option.some fact ∧
       (memStep st (MemEv.update fact)).pendingClears =
         (st.now + 8000) :: st.pendingClears ∧
       (memStep st (MemEv.update fact)).now = st.now) ∧
    (∀ (st : MemSt) (d : ℚ),
       (memStep st (MemEv.elapse d)).lastMemory =
         (if st.pendingClears.any (fun e => decide (e ≤ st.now + d)) then
            Option.none
          else st.lastMemory)) := by
  constructor
  · intro st fact
    exact ⟨rfl, rfl, rfl⟩
  · intro st d
    dsimp only [memStep]
    cases hany : st.pendingClears.any (fun e => decide (e ≤ st.now + d))
    · rw [if_neg Bool.false_ne_true, if_pos ?hp]
      case hp =>
        rw [List.isEmpty_iff, List.filter_eq_nil_iff]
        intro a ha hp
        have h2 : st.pendingClears.any (fun e => decide (e ≤ st.now + d)) = true :=
          List.any_eq_true.mpr ⟨a, ha, by exact hp⟩
        rw [hany] at h2
        exact Bool.noConfusion h2
    · rw [if_pos rfl]
      rcases List.any_eq_true.mp hany with ⟨a, ha, hp⟩
      rw [if_neg]
      intro hemp
      rw [List.isEmpty_iff] at hemp
      have hmem : a ∈ st.pendingClears.filter (fun e => decide (e ≤ st.now + d)) :=
        List.mem_filter.mpr ⟨ha, by exact hp⟩
      rw [hemp] at hmem
      exact absurd hmem (List.not_mem_nil a)

/- ------------------------------------------------------------------ -/
/- Claim C7                                                            -/
/- ------------------------------------------------------------------ -/

/-- The gesture choice partitions the unit interval into three equal
thirds, in the order of the `actions` array. -/
theorem pickAction_spec (r : ℚ) (h0 : 0 ≤ r) (h1 : r < 1) :
    (r < 1/3 ∧ pickAction r = IdleAction.glance) ∨
    (1/3 ≤ r ∧ r < 2/3 ∧ pickAction r = IdleAction.tilt) ∨
    (2/3 ≤ r ∧ pickAction r = IdleAction.shift) := by
  by_cases hA : r < 1/3
  · left
    refine ⟨hA, ?_⟩
    have hfl : Int.floor ((3 : ℚ) * r) = 0 := by
      rw [Int.floor_eq_iff]
      constructor <;> push_cast <;> linarith
    unfold pickAction
    rw [hfl]
    decide
  · by_cases hB : r < 2/3
    · right; left
      refine ⟨by linarith, hB, ?_⟩
      have hfl : Int.floor ((3 : ℚ) * r) = 1 := by
        rw [Int.floor_eq_iff]
        constructor <;> push_cast <;> linarith
      unfold pickAction
      rw [hfl]
      decide
    · right; right
      refine ⟨by linarith, ?_⟩
      have hfl : Int.floor ((3 : ℚ) * r) = 2 := by
        rw [Int.floor_eq_iff]
        constructor <;> push_cast <;> linarith
      unfold pickAction
      rw [hfl]
      decide

/-- C7, counterexample: the claim asserts that disabling idle gestures
cancels the pending gesture timer so that no gesture fires afterwards.
The effect`s dependency array is `[status]` only, so in the concrete
trace — mount in the idle state with gestures enabled (which arms the
delay timer), disable idle gestures, delay timer fires — the timer is
still armed after disabling and its callback still sets a gesture. -/
theorem C7_counterexample :
    (runIdle (idleMount Status.idle true)
       [IdleEv.setEnable false, IdleEv.outerFire 0]).enable = false ∧
    (runIdle (idleMount Status.idle true)
       [IdleEv.setEnable false, IdleEv.outerFire 0]).idleAction = IdleAction.glance ∧
    IdleAction.glance ≠ IdleAction.none := by
  have hmount : idleMount Status.idle true =
      { status := Status.idle, enable := true, idleAction := IdleAction.none,
        curOuter := true, curInner := false, zOuter := 0, zInner := 0 } := by
    unfold idleMount idleEffectBody
    rw [if_neg]
    intro hcon
    rcases hcon with h | h
    · exact h rfl
    · exact Bool.noConfusion h
  have hpick : pickAction 0 = IdleAction.glance := by
    unfold pickAction
    norm_num
  show (idleStep (idleStep (idleMount Status.idle true) (IdleEv.setEnable false))
      (IdleEv.outerFire 0)).enable = false ∧ _
  rw [hmount]
  refine ⟨rfl, ?_, by decide⟩
  show (idleStep (idleStep _ (IdleEv.setEnable false)) (IdleEv.outerFire 0)).idleAction =
    IdleAction.glance
  dsimp only [idleStep]
  rw [if_pos rfl, hpick]

/-- C7, amended: while idle with gestures enabled, the scheduler draws a
delay in [4000, 12000) ms, a gesture uniformly from the three thirds of
the unit interval (glance, tilt, shift), and a hold duration in
[2000, 3000) ms; the gesture-reset timer resets the gesture to none and
re-arms the delay timer; a session-state change away from idle clears the
delay timer armed by the torn-down effect run and resets the gesture to
none; but toggling the idle-gestures flag re-runs nothing (the dependency
array is `[status]`), so disabling it cancels no timer and a gesture
scheduled before disabling still fires. -/
theorem C7_amended :
    (∀ r : ℚ, 0 ≤ r → r < 1 →
       (4000 ≤ idleDelay r ∧ idleDelay r < 12000) ∧
       (2000 ≤ idleHold r ∧ idleHold r < 3000) ∧
       ((r < 1/3 ∧ pickAction r = IdleAction.glance) ∨
        (1/3 ≤ r ∧ r < 2/3 ∧ pickAction r = IdleAction.tilt) ∨
        (2/3 ≤ r ∧ pickAction r = IdleAction.shift))) ∧
    (∀ st : IdleSt, st.curInner = true →
       idleStep st IdleEv.innerFire =
         { st with curInner := false, idleAction := IdleAction.none,
                   curOuter := true }) ∧
    (∀ (st : IdleSt) (s : Status), s ≠ Status.idle → s ≠ st.status →
       (idleStep st (IdleEv.setStatus s)).curOuter = false ∧
       (idleStep st (IdleEv.setStatus s)).idleAction = IdleAction.none) ∧
    (∀ (st : IdleSt) (b : Bool),
       (idleStep st (IdleEv.setEnable b)).curOuter = st.curOuter ∧
       (idleStep st (IdleEv.setEnable b)).curInner = st.curInner) ∧
    (∀ (st : IdleSt) (r : ℚ), st.curOuter = true →
       (idleStep (idleStep st (IdleEv.setEnable false))
          (IdleEv.outerFire r)).idleAction = pickAction r) := by
  refine ⟨?_, ?_, ?_, ?_, ?_⟩
  · intro r h0 h1
    refine ⟨⟨?_, ?_⟩, ⟨?_, ?_⟩, pickAction_spec r h0 h1⟩ <;>
      simp only [idleDelay, idleHold] <;> linarith
  · intro st h
    dsimp only [idleStep]
    rw [if_pos h]
  · intro st s hs hne
    dsimp only [idleStep]
    rw [if_neg hne]
    dsimp only [idleEffectBody, idleCleanup]
    rw [if_pos (Or.inl hs)]
    exact ⟨rfl, rfl⟩
  · intro st b
    exact ⟨rfl, rfl⟩
  · intro st r h
    dsimp only [idleStep]
    rw [if_pos h]

/-- A concrete idle-effect state: idle, gestures enabled, delay timer
armed, a gesture-reset timer also armed. -/
def exIdle : IdleSt :=
  { status := Status.idle, enable := true, idleAction := IdleAction.glance,
    curOuter := true, curInner := true, zOuter := 0, zInner := 0 }

/-- C7, witness: the amended theorem applied to the concrete draw 1/2 and
the concrete armed state `exIdle`. -/
theorem C7_witness :
    (4000 ≤ idleDelay (1/2) ∧ idleDelay (1/2) < 12000) ∧
    idleStep exIdle IdleEv.innerFire =
      { exIdle with curInner := false, idleAction := IdleAction.none,
                    curOuter := true } ∧
    (idleStep exIdle (IdleEv.setStatus Status.speaking)).curOuter = false ∧
    (idleStep (idleStep exIdle (IdleEv.setEnable false))
       (IdleEv.outerFire (1/2))).idleAction = pickAction (1/2) :=
  ⟨(C7_amended.1 (1/2) (by norm_num) (by norm_num)).1,
   C7_amended.2.1 exIdle rfl,
   (C7_amended.2.2.1 exIdle Status.speaking (by decide) (by decide)).1,
   C7_amended.2.2.2.2 exIdle (1/2) rfl⟩

/- ------------------------------------------------------------------ -/
/- Claim C9                                                            -/
/- ------------------------------------------------------------------ -/

/-- A Math.random() draw: a rational in [0, 1). -/
def inUnit (x : ℚ) : Prop := 0 ≤ x ∧ x < 1

/-- C9: for every stream of random draws, every scheduled blink has a
duration in [100, 150) ms, and its delay is either exactly 200 ms (the
double-blink case, taken exactly when the first draw exceeds 4/5, an
event of probability 20% for a uniform draw) or lies in [2500, 7500) ms.
The schedule is a function of the draw stream alone — the effect has
dependency array `[]` and never reads the session state — and entry n+1
is scheduled by the callback of entry n. -/
theorem C9_thm :
    ∀ (rs : ℕ → ℚ × ℚ × ℚ),
      (∀ n, inUnit (rs n).1 ∧ inUnit (rs n).2.1 ∧ inUnit (rs n).2.2) →
      ∀ n,
        (100 ≤ (blinkSchedule rs n).2 ∧ (blinkSchedule rs n).2 < 150) ∧
        ((blinkSchedule rs n).1 = 200 ∨
           (2500 ≤ (blinkSchedule rs n).1 ∧ (blinkSchedule rs n).1 < 7500)) ∧
        ((blinkSchedule rs n).1 = 200 ↔ 4/5 < (rs n).1) := by
  intro rs h n
  obtain ⟨⟨h1a, h1b⟩, ⟨h2a, h2b⟩, ⟨h3a, h3b⟩⟩ := h n
  unfold blinkSchedule blinkEvent blinkDelay blinkDuration
  dsimp only
  refine ⟨⟨by linarith, by linarith⟩, ?_, ?_⟩
  · by_cases hd : 4/5 < (rs n).1
    · rw [if_pos hd]
      exact Or.inl rfl
    · rw [if_neg hd]
      exact Or.inr ⟨by linarith, by linarith⟩
  · by_cases hd : 4/5 < (rs n).1
    · rw [if_pos hd]
      exact ⟨fun _ => hd, fun _ => rfl⟩
    · rw [if_neg hd]
      constructor
      · intro heq
        have : (2500 : ℚ) ≤ (rs n).2.1 * 5000 + 2500 := by linarith
        rw [heq] at this
        linarith
      · intro hcon
        exact absurd hcon hd

/-- The all-zero draw stream. -/
def constZero : ℕ → ℚ × ℚ × ℚ := fun _ => (0, 0, 0)

/-- C9, witness: the theorem applied to the all-zero draw stream at the
first scheduled blink. -/
theorem C9_witness :
    (100 ≤ (blinkSchedule constZero 0).2 ∧ (blinkSchedule constZero 0).2 < 150) ∧
    ((blinkSchedule constZero 0).1 = 200 ∨
       (2500 ≤ (blinkSchedule constZero 0).1 ∧ (blinkSchedule constZero 0).1 < 7500)) ∧
    ((blinkSchedule constZero 0).1 = 200 ↔ 4/5 < (constZero 0).1) :=
  C9_thm constZero
    (fun _ => ⟨⟨le_refl 0, zero_lt_one⟩, ⟨le_refl 0, zero_lt_one⟩,
               ⟨le_refl 0, zero_lt_one⟩⟩) 0

end Astra
